import Mathlib

/-!
Verification of the client-side audio capture / playback / submission /
evaluation pipeline of the hyperverge-hack-sensei frontend.

Shallow embedding of:
  * src/components/AudioInputComponent.tsx        (namespace AudioInput)
  * src/components/ConversationalFeedbackViewer.tsx (namespace ConvFeedback)
  * src/components/InterviewMode.tsx              (namespace InterviewMode)
  * src/components/RubricScorecard.tsx            (rubric shapes, normalize)

Modelling conventions:
  * React `useState` values and `useRef` cells become fields of one state
    record per component; every event handler becomes a function on that
    record.  TypeScript `number` fields become `ℚ` (except whole-second
    counters, which the code only ever increments by 1, kept as `Nat`).
  * A `Blob` is its ordered chunk list plus a MIME string.
  * Hardware tracking: `acquireCount` counts successful getUserMedia
    acquisitions, `releaseCount` counts executions of
    `stream.getTracks().forEach(track => track.stop())`.  A microphone
    track is live iff `releaseCount < acquireCount`.
  * Closure capture is modelled explicitly.  In both recording surfaces the
    interval callback created inside `startRecording` closes over the
    `stopRecording` function instance of the render in which that
    `startRecording` instance was created.  The Start button only renders
    while `isRecording` is false, so that captured `stopRecording` instance
    closed over `isRecording = false`; the governor therefore calls
    `stopRecordingWith false`, while the Stop button of the current render
    calls `stopRecordingWith s.isRecording`.  (In AudioInputComponent.tsx,
    `startRecording` is memoised with deps `[maxDuration]` (line 98) and is
    not re-created when `isRecording` flips, so it keeps the stale
    `stopRecording` whose deps are `[isRecording]` (line 110); in
    ConversationalFeedbackViewer.tsx the plain per-render functions have
    the same capture structure.)
-/

namespace Sensei

/-- An audio payload: the ordered chunk contents (abstracted to sizes) plus
the MIME type.  `new Blob(chunks, { type })` concatenates the chunks. -/
structure Blob where
  data : List Nat
  mime : String
deriving DecidableEq, Repr

/-- A `MediaRecorder`: only its active/inactive state matters here.  Chunk
buffers live in the owning component (they are refs/locals there). -/
structure Recorder where
  recording : Bool
deriving DecidableEq, Repr

namespace AudioInput

/-- An `HTMLAudioElement` held by `audioElementRef`; only whether it is
currently playing is observable in this development. -/
structure AudioElt where
  playing : Bool
deriving DecidableEq, Repr

/-- State of `AudioInputComponent` (AudioInputComponent.tsx lines 19-31):
the seven `useState` values plus the refs, with hardware instrumentation.
`maxDuration` is a prop and is passed to `tick` explicitly. -/
structure State where
  isRecording : Bool
  audioBlob : Option Blob
  recordingTime : Nat
  isPlaying : Bool
  currentTime : ℚ
  duration : ℚ
  showDeleteConfirmation : Bool
  mediaRecorder : Option Recorder    -- mediaRecorderRef
  chunks : List Nat                  -- audioChunksRef
  intervalActive : Bool              -- recordingIntervalRef
  audioElement : Option AudioElt     -- audioElementRef
  acquireCount : Nat
  releaseCount : Nat
deriving DecidableEq, Repr

/-- Initial component state: all `useState` initialisers and null refs. -/
def init : State :=
  { isRecording := false, audioBlob := none, recordingTime := 0
    isPlaying := false, currentTime := 0, duration := 0
    showDeleteConfirmation := false, mediaRecorder := none, chunks := []
    intervalActive := false, audioElement := none
    acquireCount := 0, releaseCount := 0 }

/-- The `startRecording` (lines 46-98), success path of `getUserMedia`: acquire
the stream, create an active recorder with an empty chunk buffer, set
`isRecording`, reset the timer, and start the interval. -/
def startRecording (s : State) : State :=
  { s with acquireCount := s.acquireCount + 1
           mediaRecorder := some { recording := true }
           chunks := []
           isRecording := true
           recordingTime := 0
           intervalActive := true }

/-- The `mediaRecorder.stop()` together with the `onstop` handler (lines
69-75): if the recorder is active it becomes inactive, `onstop` builds the
blob from the accumulated chunks (`new Blob(chunks, { type: 'audio/webm' })`),
stores it in `audioBlob`, and stops every stream track (one release).
Stopping an inactive recorder is a no-op. -/
def recorderStop (s : State) : State :=
  match s.mediaRecorder with
  | some r =>
      if r.recording then
        { s with mediaRecorder := some { recording := false }
                 audioBlob := some { data := s.chunks, mime := "audio/webm" }
                 releaseCount := s.releaseCount + 1 }
      else s
  | none => s

/-- The `stopRecording` (lines 100-110) as invoked by a closure that captured
the value `captured` for `isRecording`: guarded by
`mediaRecorderRef.current && isRecording`; on success stops the recorder
(firing `onstop`), clears `isRecording` and the interval. -/
def stopRecordingWith (captured : Bool) (s : State) : State :=
  if s.mediaRecorder.isSome && captured then
    { recorderStop s with isRecording := false, intervalActive := false }
  else s

/-- The `stopRecording` invoked from the current render (the Stop button):
the captured `isRecording` is the current state value. -/
def stopRecording (s : State) : State :=
  stopRecordingWith s.isRecording s

/-- One firing of the recording interval (lines 82-92).  The updater
computes `newTime = prev + 1`; at the ceiling it calls the captured
`stopRecording` — whose closed-over `isRecording` is `false` (see the
closure-capture note in the file header), making that call a no-op — and
returns `maxDuration`; otherwise it returns `newTime`.  A cleared interval
does not fire. -/
def tick (maxDuration : Nat) (s : State) : State :=
  if s.intervalActive then
    let newTime := s.recordingTime + 1
    if maxDuration ≤ newTime then
      { stopRecordingWith false s with recordingTime := maxDuration }
    else
      { s with recordingTime := newTime }
  else s

/-- The `ondataavailable` (lines 63-67): push the chunk iff its size is
positive. -/
def dataAvailable (c : Nat) (s : State) : State :=
  if 0 < c then { s with chunks := s.chunks ++ [c] } else s

/-- Unmount cleanup effect (lines 34-44): clear the interval and pause and
drop the audio element.  It does not touch the recorder or the stream. -/
def unmountCleanup (s : State) : State :=
  { s with intervalActive := false, audioElement := none }

/-- The `playAudio` (lines 112-135): only when a blob exists and nothing is
playing, create a fresh element from an object URL of the blob and play
it. -/
def playAudio (s : State) : State :=
  if s.audioBlob.isSome && !s.isPlaying then
    { s with audioElement := some { playing := true }, isPlaying := true }
  else s

/-- The `pauseAudio` (lines 137-142). -/
def pauseAudio (s : State) : State :=
  if s.audioElement.isSome && s.isPlaying then
    { s with audioElement := some { playing := false }, isPlaying := false }
  else s

/-- The `confirmDelete` (lines 175-193), the discard action: pause playback if
playing, then clear the blob, the timers and the dialog.  (`audio.src = ''`
on a still-held element is presentational and not tracked.) -/
def confirmDelete (s : State) : State :=
  let s1 :=
    if s.isPlaying && s.audioElement.isSome then
      { s with audioElement := some { playing := false }, isPlaying := false }
    else s
  { s1 with audioBlob := none, recordingTime := 0, currentTime := 0
            duration := 0, showDeleteConfirmation := false }

/-- The `handleFileUpload` (lines 144-150): `event.target.files?.[0]`; accept
the file as the artifact and reset the timer only when its MIME type
starts with `audio/` (`file.type.startsWith('audio/')`, modelled as a
character-level prefix test). -/
def handleFileUpload (file : Option Blob) (s : State) : State :=
  match file with
  | some f =>
      if "audio/".data.isPrefixOf f.mime.data then
        { s with audioBlob := some f, recordingTime := 0 }
      else s
  | none => s

/-- The `handleSubmit` (lines 152-156): the blob handed to `onAudioSubmit`, or
`none` when there is no blob (in which case nothing is called). -/
def handleSubmit (s : State) : Option Blob :=
  s.audioBlob

end AudioInput

/-- One scored criterion in the `name/score/maxScore/feedback` shape
(`FeedbackResult.feedback.criteriaScores` element,
ConversationalFeedbackViewer.tsx lines 25-30). -/
structure CriteriaScore where
  name : String
  score : ℚ
  maxScore : ℚ
  feedback : String
deriving DecidableEq, Repr

/-- The `FeedbackResult.feedback` (ConversationalFeedbackViewer.tsx lines
20-31). -/
structure FeedbackBody where
  strengths : List String
  improvements : List String
  deliverySuggestions : List String
  overallScore : ℚ
  criteriaScores : List CriteriaScore
deriving DecidableEq, Repr

/-- The `FeedbackResult` (ConversationalFeedbackViewer.tsx lines 18-32). -/
structure FeedbackResult where
  transcription : String
  feedback : FeedbackBody
deriving DecidableEq, Repr

namespace ConvFeedback

/-- The `ConversationalFeedbackConfig` (lines 34-38).  The prompt blocks and
the rubric are opaque to the session logic; the rubric is kept as the JSON
string forwarded to the backend. -/
structure Config where
  maxDuration : Nat
  rubric : String
deriving DecidableEq, Repr

/-- Status of one `HTMLAudioElement` playback handle. -/
inductive PlayStatus where
  | Playing
  | Paused
  | Ended
deriving DecidableEq, Repr

/-- A playback handle: a fresh `new Audio(url)` element, identified by
creation order. -/
structure Handle where
  id : Nat
  status : PlayStatus
deriving DecidableEq, Repr

/-- Terminal outcome of the `/conversational-feedback/analyze` request as
seen by `submitRecording`: a parsed result, a non-2xx response (the code
throws), or a network failure (fetch rejects). -/
inductive SubmitOutcome where
  | ok (result : FeedbackResult)
  | httpError (code : Nat)
  | netFail
deriving DecidableEq, Repr

/-- Evaluates to `true` on the two paths that land in the `catch` block. -/
def SubmitOutcome.isFailure : SubmitOutcome → Bool
  | .ok _ => false
  | .httpError _ => true
  | .netFail => true

/-- State of `ConversationalFeedbackViewer` (lines 52-76): the `useState`
values and refs of the learner surface (admin-view listing state is
presentational and omitted), with hardware instrumentation.  Elements
replaced in `audioRef` are retained in `orphans` to account for every
handle ever created. -/
structure State where
  config : Option Config
  isLoading : Bool
  error : Option String
  isRecording : Bool
  audioBlob : Option Blob
  recordingDuration : Nat
  isPlaying : Bool
  isProcessing : Bool
  feedback : Option FeedbackResult
  isSubmitted : Bool
  mediaRecorder : Option Recorder    -- mediaRecorderRef
  chunks : List Nat                  -- the audioChunks local captured by the handlers
  intervalActive : Bool              -- recordingIntervalRef
  audioUrl : Option Nat              -- audioUrlRef (object URLs numbered by creation)
  urlCounter : Nat
  audioRef : Option Handle
  orphans : List Handle
  handleCounter : Nat
  acquireCount : Nat
  releaseCount : Nat
deriving DecidableEq, Repr

/-- Initial component state. -/
def init : State :=
  { config := none, isLoading := true, error := none, isRecording := false
    audioBlob := none, recordingDuration := 0, isPlaying := false
    isProcessing := false, feedback := none, isSubmitted := false
    mediaRecorder := none, chunks := [], intervalActive := false
    audioUrl := none, urlCounter := 0, audioRef := none, orphans := []
    handleCounter := 0, acquireCount := 0, releaseCount := 0 }

/-- The `config?.maxDuration || 120` (line 181): JavaScript `||` also replaces
a configured value of 0 by the default. -/
def effectiveMaxDuration (s : State) : Nat :=
  match s.config with
  | some c => if c.maxDuration = 0 then 120 else c.maxDuration
  | none => 120

/-- The `startRecording` (lines 147-192), success path of `getUserMedia`:
acquire, create an active recorder with a fresh chunk buffer, set
`isRecording`, reset the duration, start the interval. -/
def startRecording (s : State) : State :=
  { s with acquireCount := s.acquireCount + 1
           mediaRecorder := some { recording := true }
           chunks := []
           isRecording := true
           recordingDuration := 0
           intervalActive := true }

/-- The `ondataavailable` (lines 153-155): every delivered chunk is pushed
(no size filter in this surface). -/
def dataAvailable (c : Nat) (s : State) : State :=
  { s with chunks := s.chunks ++ [c] }

/-- The `mediaRecorder.stop()` with the `onstop` handler (lines 157-170): the
blob is built from the chunks, the previous object URL is revoked, a fresh
object URL is created for the blob, and the stream tracks are stopped
(one release).  Stopping an inactive recorder is a no-op. -/
def recorderStop (s : State) : State :=
  match s.mediaRecorder with
  | some r =>
      if r.recording then
        { s with mediaRecorder := some { recording := false }
                 audioBlob := some { data := s.chunks, mime := "audio/webm" }
                 audioUrl := some s.urlCounter
                 urlCounter := s.urlCounter + 1
                 releaseCount := s.releaseCount + 1 }
      else s
  | none => s

/-- The `stopRecording` (lines 194-203) as invoked by a closure that captured
the value `captured` for `isRecording`. -/
def stopRecordingWith (captured : Bool) (s : State) : State :=
  if s.mediaRecorder.isSome && captured then
    { recorderStop s with isRecording := false, intervalActive := false }
  else s

/-- The `stopRecording` invoked from the current render (the Stop button). -/
def stopRecording (s : State) : State :=
  stopRecordingWith s.isRecording s

/-- One firing of the duration interval (lines 178-186).  The updater
computes `newDuration = prev + 1`; at or past the ceiling it calls the
captured `stopRecording` — a no-op, its closed-over `isRecording` is
`false` (file header note) — and it returns `newDuration` unconditionally
(this surface does not clamp). -/
def tick (s : State) : State :=
  if s.intervalActive then
    let newDuration := s.recordingDuration + 1
    let s1 := if effectiveMaxDuration s ≤ newDuration then stopRecordingWith false s else s
    { s1 with recordingDuration := newDuration }
  else s

/-- The `playAudio` (lines 205-218): when an object URL exists, pause the
element currently in `audioRef` (if any), then create and play a fresh
element which replaces it. -/
def playAudio (s : State) : State :=
  match s.audioUrl with
  | some _ =>
      let orphans' :=
        match s.audioRef with
        | some h => { h with status := .Paused } :: s.orphans
        | none => s.orphans
      { s with orphans := orphans'
               audioRef := some { id := s.handleCounter, status := .Playing }
               handleCounter := s.handleCounter + 1
               isPlaying := true }
  | none => s

/-- The `pauseAudio` (lines 220-225). -/
def pauseAudio (s : State) : State :=
  match s.audioRef with
  | some h => { s with audioRef := some { h with status := .Paused }, isPlaying := false }
  | none => s

/-- The `onended` handler (line 214) together with the element finishing
naturally. -/
def ended (s : State) : State :=
  match s.audioRef with
  | some h => { s with audioRef := some { h with status := .Ended }, isPlaying := false }
  | none => s

/-- The `deleteRecording` (lines 227-243): clear blob, duration, playback and
feedback state, revoke the object URL, pause and drop the current
element. -/
def deleteRecording (s : State) : State :=
  let s1 := { s with audioBlob := none, recordingDuration := 0
                     isPlaying := false, feedback := none
                     isSubmitted := false, audioUrl := none }
  match s1.audioRef with
  | some h => { s1 with orphans := { h with status := .Paused } :: s1.orphans
                        audioRef := none }
  | none => s1

/-- The synchronous prefix of `submitRecording` (lines 245-260): the guard
`if (!audioBlob || !config) return;` and `setIsProcessing(true)` before
the fetch.  The boolean reports whether the network request was issued. -/
def submitStart (s : State) : State × Bool :=
  if s.audioBlob.isNone || s.config.isNone then (s, false)
  else ({ s with isProcessing := true }, true)

/-- The continuation of `submitRecording` (lines 262-280): on a parsed
result set `feedback` and `isSubmitted`; a non-2xx status or a rejected
fetch lands in `catch`, which sets the error banner; `finally` clears
`isProcessing` on every path. -/
def submitResolve (o : SubmitOutcome) (s : State) : State :=
  match o with
  | .ok r => { s with feedback := some r, isSubmitted := true, isProcessing := false }
  | .httpError _ =>
      { s with error := some "Failed to process your recording. Please try again."
               isProcessing := false }
  | .netFail =>
      { s with error := some "Failed to process your recording. Please try again."
               isProcessing := false }

/-- Unmount cleanup effect (lines 84-93): revoke the object URL and clear
the interval.  Neither the recorder, the stream, nor the playing element
is touched. -/
def unmountCleanup (s : State) : State :=
  { s with intervalActive := false }

/-- The `disabled={isProcessing}` on the submit button (line 618). -/
def submitDisabled (s : State) : Bool :=
  s.isProcessing

/-- The events of the surface. -/
inductive Ev where
  | loadConfigOk (cfg : Config)
  | loadConfigErr (msg : String)
  | startRec
  | startRecErr
  | dataAvail (c : Nat)
  | tick
  | stopRec
  | play
  | pause
  | ended
  | deleteRec
  | submitBegin
  | submitEnd (o : SubmitOutcome)
  | unmount

/-- One event step. -/
def step : Ev → State → State
  | .loadConfigOk cfg, s => { s with config := some cfg, isLoading := false }
  | .loadConfigErr msg, s => { s with error := some msg, isLoading := false }
  | .startRec, s => startRecording s
  | .startRecErr, s =>
      { s with error := some "Failed to start recording. Please check your microphone permissions." }
  | .dataAvail c, s => dataAvailable c s
  | .tick, s => tick s
  | .stopRec, s => stopRecording s
  | .play, s => playAudio s
  | .pause, s => pauseAudio s
  | .ended, s => ended s
  | .deleteRec, s => deleteRecording s
  | .submitBegin, s => (submitStart s).1
  | .submitEnd o, s => submitResolve o s
  | .unmount, s => unmountCleanup s

/-- States reachable from the initial component state. -/
inductive Reachable : State → Prop
  | init : Reachable init
  | step (e : Ev) {s : State} : Reachable s → Reachable (step e s)

/-- Every playback handle ever created: the referenced one plus the
orphaned ones. -/
def handleList (s : State) : List Handle :=
  s.audioRef.toList ++ s.orphans

/-- Number of handles currently in `Playing`. -/
def playingCount (s : State) : Nat :=
  (handleList s).countP (fun h => h.status = .Playing)

end ConvFeedback

/-- One scored criterion in the `criterion/score/feedback` shape
(RubricScorecard.tsx lines 4-9, also `InterviewEvaluation.scores`
elements in InterviewMode.tsx lines 8-13). -/
structure CriterionScore where
  criterion : String
  score : ℚ
  feedback : String
  transcript_references : List String
deriving DecidableEq, Repr

/-- A `{start, end, word}` timestamp range (InterviewMode.tsx line 19). -/
structure TimestampRange where
  start : ℚ
  «end» : ℚ
  word : String
deriving DecidableEq, Repr

/-- An actionable tip (InterviewMode.tsx lines 15-21). -/
structure ActionableTip where
  title : String
  description : String
  transcript_lines : List String
  timestamp_ranges : List TimestampRange
  priority : ℚ
deriving DecidableEq, Repr

/-- The `speech_analysis` (InterviewMode.tsx lines 23-29); `long_pauses` holds
opaque entries (`Array<any>`). -/
structure SpeechAnalysis where
  word_count : ℚ
  filler_count : ℚ
  speaking_rate_wpm : ℚ
  total_duration : ℚ
  long_pauses : List Unit
deriving DecidableEq, Repr

/-- The `InterviewEvaluation` (InterviewMode.tsx lines 7-31). -/
structure InterviewEvaluation where
  scores : List CriterionScore
  overall_score : ℚ
  actionable_tips : List ActionableTip
  transcript : String
  speech_analysis : SpeechAnalysis
  duration_seconds : ℚ
deriving DecidableEq, Repr

namespace InterviewMode

/-- The two backend endpoints `handleAudioSubmit` can reach. -/
inductive Call where
  | uploadLocal
  | interviewEvaluate
deriving DecidableEq, Repr

/-- Behaviour of the backend for one submission attempt: whether the
upload succeeds, whether the evaluation request succeeds, and the parsed
result in the success case. -/
structure NetEnv where
  uploadOk : Bool
  evalOk : Bool
  result : InterviewEvaluation
deriving DecidableEq, Repr

/-- State of `InterviewMode` (InterviewMode.tsx lines 44-46). -/
structure State where
  isSubmitting : Bool
  evaluation : Option InterviewEvaluation
  audioBlob : Option Blob
deriving DecidableEq, Repr

/-- Initial component state. -/
def init : State :=
  { isSubmitting := false, evaluation := none, audioBlob := none }

/-- The `handleAudioSubmit` (InterviewMode.tsx lines 48-97) run to completion
against `env`, paired with the list of network calls actually issued:
`setIsSubmitting(true)` and `setAudioBlob(blob)` first; the upload is
always attempted; on upload success the evaluation request is always
attempted; a failed response throws into `catch` (which only logs);
`finally` clears `isSubmitting`.  No emptiness check is performed on the
blob, and `audioBlob` is never cleared. -/
def handleAudioSubmit (blob : Blob) (env : NetEnv) (s : State) : State × List Call :=
  let s1 := { s with isSubmitting := true, audioBlob := some blob }
  if env.uploadOk then
    if env.evalOk then
      ({ s1 with evaluation := some env.result, isSubmitting := false },
       [.uploadLocal, .interviewEvaluate])
    else
      ({ s1 with isSubmitting := false }, [.uploadLocal, .interviewEvaluate])
  else
    ({ s1 with isSubmitting := false }, [.uploadLocal])

end InterviewMode

/-- The `getCriterionLabel` (RubricScorecard.tsx lines 28-36): map the raw
criterion key to a display name; unknown keys get their first character
upper-cased (`charAt(0).toUpperCase() + slice(1)`). -/
def getCriterionLabel (criterion : String) : String :=
  match criterion.toLower with
  | "content" => "Content Quality"
  | "structure" => "Organization & Structure"
  | "clarity" => "Clarity & Communication"
  | "delivery" => "Delivery & Confidence"
  | _ => criterion.capitalize

/-- Canonical criterion entry of the evaluation model (spec section 3):
the shape both rendering surfaces agree on. -/
structure Criterion where
  name : String
  score : ℚ
  maxScore : ℚ
  feedback : String
  transcriptReferences : List String
deriving DecidableEq, Repr

/-- A raw rubric-score entry in one of the two shapes present in the
repository. -/
inductive RawScore where
  | interview (c : CriterionScore)
  | conversational (c : CriteriaScore)
deriving DecidableEq, Repr

/-- The raw entry's score field. -/
def RawScore.scoreValue : RawScore → ℚ
  | .interview c => c.score
  | .conversational c => c.score

/-- The raw entry's feedback field. -/
def RawScore.feedbackText : RawScore → String
  | .interview c => c.feedback
  | .conversational c => c.feedback

/-- Projection of either raw shape into the canonical criterion entry,
read off the two rendering code paths: RubricScorecard.tsx presents an
`interview` entry as `getCriterionLabel(criterion)` scored
`{score.score}/5` (lines 57-63) with its transcript references (line 76);
ConversationalFeedbackViewer.tsx presents a `conversational` entry as
`{name}` scored `{score}/{maxScore}` with its feedback (lines 667-676) and
no transcript references. -/
def normalize : RawScore → Criterion
  | .interview c =>
      { name := getCriterionLabel c.criterion, score := c.score, maxScore := 5
        feedback := c.feedback, transcriptReferences := c.transcript_references }
  | .conversational c =>
      { name := c.name, score := c.score, maxScore := c.maxScore
        feedback := c.feedback, transcriptReferences := [] }

/-! Concrete sessions and payloads used to evaluate the claims. -/

/-- A session of `AudioInputComponent` with `maxDuration = 1` that is
started and then receives one governor tick. -/
def c1Session : AudioInput.State :=
  AudioInput.tick 1 (AudioInput.startRecording AudioInput.init)

/-- The `AudioInputComponent` torn down (unmounted) while recording is in
progress. -/
def c3AudioTornDown : AudioInput.State :=
  AudioInput.unmountCleanup (AudioInput.startRecording AudioInput.init)

/-- The `ConversationalFeedbackViewer` torn down while recording is in
progress. -/
def c3ConvTornDown : ConvFeedback.State :=
  ConvFeedback.step .unmount (ConvFeedback.step .startRec ConvFeedback.init)

/-- A trivial parsed interview evaluation payload. -/
def sampleEvaluation : InterviewEvaluation :=
  { scores := [], overall_score := 0, actionable_tips := [], transcript := ""
    speech_analysis := { word_count := 0, filler_count := 0, speaking_rate_wpm := 0
                         total_duration := 0, long_pauses := [] }
    duration_seconds := 0 }

/-- A backend that accepts both the upload and the evaluation request. -/
def sampleEnv : InterviewMode.NetEnv :=
  { uploadOk := true, evalOk := true, result := sampleEvaluation }

/-- A zero-byte audio artifact, as produced by a recording that delivered
no chunks. -/
def emptyBlob : Blob :=
  { data := [], mime := "audio/webm" }

/-- The `ConversationalFeedbackViewer` after config load, a recording started
and stopped without any delivered chunk: `audioBlob` is the zero-byte
artifact. -/
def c4EmptyCapture : ConvFeedback.State :=
  ConvFeedback.step .stopRec (ConvFeedback.step .startRec
    (ConvFeedback.step (.loadConfigOk { maxDuration := 60, rubric := "r" })
      ConvFeedback.init))

/-- The `ConversationalFeedbackViewer` with a captured recording whose first
submission is in flight (`isProcessing = true`, no outcome yet). -/
def c5InFlight : ConvFeedback.State :=
  ConvFeedback.step .submitBegin (ConvFeedback.step .stopRec
    (ConvFeedback.step (.dataAvail 3) (ConvFeedback.step .startRec
      (ConvFeedback.step (.loadConfigOk { maxDuration := 60, rubric := "r" })
        ConvFeedback.init))))

/-- The `ConversationalFeedbackViewer` playing its captured recording:
reached by start, one chunk, stop, play. -/
def c7TraceState : ConvFeedback.State :=
  ConvFeedback.step .play (ConvFeedback.step .stopRec
    (ConvFeedback.step (.dataAvail 3) (ConvFeedback.step .startRec
      ConvFeedback.init)))

/-- The `AudioInputComponent` with a blob and playback in progress. -/
def aiPlayingState : AudioInput.State :=
  { AudioInput.init with isPlaying := true
                         audioBlob := some { data := [1], mime := "audio/webm" }
                         audioElement := some { playing := true } }

/-- The `ConversationalFeedbackViewer` holding a captured one-chunk recording,
idle. -/
def c8CapturedState : ConvFeedback.State :=
  ConvFeedback.step .stopRec (ConvFeedback.step (.dataAvail 5)
    (ConvFeedback.step .startRec (ConvFeedback.step
      (.loadConfigOk { maxDuration := 60, rubric := "r" }) ConvFeedback.init)))

/-- The spec's sample raw entry in the `criterion/score/feedback` shape. -/
def rawInterviewSample : RawScore :=
  .interview { criterion := "content", score := 4, feedback := "x"
               transcript_references := [] }

/-- The spec's sample raw entry in the `name/score/maxScore/feedback`
shape. -/
def rawConversationalSample : RawScore :=
  .conversational { name := "Content Quality", score := 4, maxScore := 5
                    feedback := "x" }

end Sensei

namespace Sensei

/-- The `stopRecording` of AudioInputComponent is idempotent as a state
transformer: a successful stop clears `isRecording`, so the guard of any
later call fails. -/
theorem AudioInput.stopRecording_idempotent (s : AudioInput.State) :
    AudioInput.stopRecording (AudioInput.stopRecording s)
      = AudioInput.stopRecording s := by
  unfold AudioInput.stopRecording AudioInput.stopRecordingWith
  cases hg : (s.mediaRecorder.isSome && s.isRecording) with
  | false => simp [hg]
  | true => simp [hg]

/-- The `stopRecording` of ConversationalFeedbackViewer is idempotent as a
state transformer. -/
theorem ConvFeedback.stopRecording_twice_eq (s : ConvFeedback.State) :
    ConvFeedback.stopRecording (ConvFeedback.stopRecording s)
      = ConvFeedback.stopRecording s := by
  unfold ConvFeedback.stopRecording ConvFeedback.stopRecordingWith
  cases hg : (s.mediaRecorder.isSome && s.isRecording) with
  | false => simp [hg]
  | true => simp [hg]

/-- Claim C1: the claim says a recording that is never manually stopped is
automatically stopped by the duration timer and ends captured with elapsed
time equal to the configured maximum.  The code refutes this: with
`maxDuration = 1`, after `startRecording` and the governor tick that
reaches the ceiling, the displayed time is clamped at 1 but the session is
still recording — the recorder is active, no artifact was produced, the
microphone track is not released — and further ticks leave it recording,
because the interval closure calls the `stopRecording` instance whose
captured `isRecording` is `false` (AudioInputComponent.tsx lines 82-92 and
100-110), so its guard fails. -/
theorem claim_C1 :
    c1Session.recordingTime = 1 ∧
    c1Session.isRecording = true ∧
    c1Session.mediaRecorder = some { recording := true } ∧
    c1Session.audioBlob = none ∧
    c1Session.acquireCount = 1 ∧
    c1Session.releaseCount = 0 ∧
    (AudioInput.tick 1 c1Session).mediaRecorder = some { recording := true } ∧
    (AudioInput.tick 1 c1Session).recordingTime = 1 := by
  decide

/-- Claim C2: a raw rubric entry in either known shape whose score is 4
and whose feedback is non-empty normalizes to a canonical criteria entry
with score 4 and a populated feedback string. -/
theorem claim_C2 (r : RawScore) (h4 : r.scoreValue = 4)
    (hfb : r.feedbackText ≠ "") :
    (normalize r).score = 4 ∧ (normalize r).feedback ≠ "" := by
  cases r with
  | interview c => exact ⟨h4, hfb⟩
  | conversational c => exact ⟨h4, hfb⟩

/-- Witness for C2 at the two concrete payloads of the spec. -/
theorem witness_C2 :
    ((normalize rawInterviewSample).score = 4 ∧
      (normalize rawInterviewSample).feedback ≠ "") ∧
    ((normalize rawConversationalSample).score = 4 ∧
      (normalize rawConversationalSample).feedback ≠ "") :=
  ⟨claim_C2 rawInterviewSample rfl (by decide),
   claim_C2 rawConversationalSample rfl (by decide)⟩

/-- Claim C9: an entry in the `criterion/score/feedback` shape (which has
no maxScore field) is normalized with the fixed default maximum score 5 —
the `/5` scale hard-coded by RubricScorecard.tsx line 62 — while its score
is carried over unchanged and is therefore presented against that scale
of 5. -/
theorem claim_C9 (c : CriterionScore) :
    (normalize (RawScore.interview c)).maxScore = 5 ∧
    (normalize (RawScore.interview c)).score = c.score :=
  ⟨rfl, rfl⟩

/-- Claim C10: a file chosen through the upload input whose MIME type does
not start with `audio/` leaves the component state entirely unchanged; one
whose MIME type does start with `audio/` becomes the audio artifact and
resets the recorded time to zero, changing nothing else; no selected file
changes nothing. -/
theorem claim_C10 :
    (∀ (f : Blob) (s : AudioInput.State),
        "audio/".data.isPrefixOf f.mime.data = false →
        AudioInput.handleFileUpload (some f) s = s) ∧
    (∀ (f : Blob) (s : AudioInput.State),
        "audio/".data.isPrefixOf f.mime.data = true →
        AudioInput.handleFileUpload (some f) s
          = { s with audioBlob := some f, recordingTime := 0 }) ∧
    (∀ s : AudioInput.State, AudioInput.handleFileUpload none s = s) := by
  refine ⟨?_, ?_, fun s => rfl⟩
  · intro f s h
    simp [AudioInput.handleFileUpload, h]
  · intro f s h
    simp [AudioInput.handleFileUpload, h]

/-- Witness for C10: a video file is ignored, an mpeg audio file is
accepted and resets the timer. -/
theorem witness_C10 :
    AudioInput.handleFileUpload (some { data := [7], mime := "video/mp4" })
        AudioInput.init = AudioInput.init ∧
    AudioInput.handleFileUpload (some { data := [7], mime := "audio/mpeg" })
        AudioInput.init
      = { AudioInput.init with
            audioBlob := some { data := [7], mime := "audio/mpeg" }
            recordingTime := 0 } :=
  ⟨claim_C10.1 _ AudioInput.init (by decide),
   claim_C10.2.1 _ AudioInput.init (by decide)⟩

/-- Claim C6: `stop` is idempotent in both recording surfaces — a second
stop after the session is stopped is a no-op, it yields the same artifact
as the first call, and from an active recording the device release is
performed exactly once across both calls. -/
theorem claim_C6 :
    (∀ s : AudioInput.State,
        AudioInput.stopRecording (AudioInput.stopRecording s)
          = AudioInput.stopRecording s) ∧
    (∀ s : AudioInput.State, s.isRecording = false →
        AudioInput.stopRecording s = s) ∧
    (∀ s : AudioInput.State, s.mediaRecorder = some { recording := true } →
        s.isRecording = true →
        (AudioInput.stopRecording (AudioInput.stopRecording s)).releaseCount
            = s.releaseCount + 1 ∧
        (AudioInput.stopRecording (AudioInput.stopRecording s)).audioBlob
            = (AudioInput.stopRecording s).audioBlob) ∧
    (∀ s : ConvFeedback.State,
        ConvFeedback.stopRecording (ConvFeedback.stopRecording s)
          = ConvFeedback.stopRecording s) := by
  refine ⟨AudioInput.stopRecording_idempotent, ?_, ?_, ConvFeedback.stopRecording_twice_eq⟩
  · intro s h
    simp [AudioInput.stopRecording, AudioInput.stopRecordingWith, h]
  · intro s hm hr
    rw [AudioInput.stopRecording_idempotent]
    constructor
    · simp [AudioInput.stopRecording, AudioInput.stopRecordingWith,
        AudioInput.recorderStop, hm, hr]
    · rfl

/-- Witness for C6 from a freshly started recording of
AudioInputComponent. -/
theorem witness_C6 :
    ((AudioInput.stopRecording (AudioInput.stopRecording
          (AudioInput.startRecording AudioInput.init))).releaseCount
        = (AudioInput.startRecording AudioInput.init).releaseCount + 1 ∧
      (AudioInput.stopRecording (AudioInput.stopRecording
          (AudioInput.startRecording AudioInput.init))).audioBlob
        = (AudioInput.stopRecording
            (AudioInput.startRecording AudioInput.init)).audioBlob) ∧
    AudioInput.stopRecording AudioInput.init = AudioInput.init :=
  ⟨claim_C6.2.2.1 (AudioInput.startRecording AudioInput.init) rfl rfl,
    claim_C6.2.1 AudioInput.init rfl⟩

/-- Claim C8: a submission that fails leaves the captured artifact
untouched.  In ConversationalFeedbackViewer every failing outcome keeps
`audioBlob` and the object URL (only the error banner and the processing
flag change); in InterviewMode `handleAudioSubmit` stores the submitted
blob and never clears it, on any outcome. -/
theorem claim_C8 :
    (∀ (o : ConvFeedback.SubmitOutcome) (s : ConvFeedback.State),
        o.isFailure = true →
        (ConvFeedback.submitResolve o s).audioBlob = s.audioBlob ∧
        (ConvFeedback.submitResolve o s).audioUrl = s.audioUrl ∧
        (ConvFeedback.submitResolve o s).isSubmitted = s.isSubmitted) ∧
    (∀ (blob : Blob) (env : InterviewMode.NetEnv) (s : InterviewMode.State),
        (InterviewMode.handleAudioSubmit blob env s).1.audioBlob = some blob) := by
  constructor
  · intro o s ho
    cases o with
    | ok r => simp [ConvFeedback.SubmitOutcome.isFailure] at ho
    | httpError c => exact ⟨rfl, rfl, rfl⟩
    | netFail => exact ⟨rfl, rfl, rfl⟩
  · intro blob env s
    unfold InterviewMode.handleAudioSubmit
    dsimp only
    split
    · split <;> rfl
    · rfl

/-- Witness for C8: a network failure on the in-flight submission of a
captured recording keeps the artifact. -/
theorem witness_C8 :
    (ConvFeedback.submitResolve .netFail c8CapturedState).audioBlob
        = c8CapturedState.audioBlob ∧
    (ConvFeedback.submitResolve .netFail c8CapturedState).audioUrl
        = c8CapturedState.audioUrl ∧
    (ConvFeedback.submitResolve .netFail c8CapturedState).isSubmitted
        = c8CapturedState.isSubmitted :=
  claim_C8.1 .netFail c8CapturedState rfl

/-- Counterexample to claim C3 as stated: both surfaces torn down
(unmounted) while recording is in progress keep the acquired microphone
track: one acquisition, zero releases, recorder still active — the unmount
cleanups (AudioInputComponent.tsx lines 34-44,
ConversationalFeedbackViewer.tsx lines 84-93) never stop the stream
tracks. -/
theorem counterexample_C3 :
    c3AudioTornDown.acquireCount = 1 ∧
    c3AudioTornDown.releaseCount = 0 ∧
    c3AudioTornDown.mediaRecorder = some { recording := true } ∧
    c3ConvTornDown.acquireCount = 1 ∧
    c3ConvTornDown.releaseCount = 0 ∧
    c3ConvTornDown.mediaRecorder = some { recording := true } := by
  decide

/-- Claim C3 as amended: stopping an active recording releases the device
exactly once (in `onstop`), and a discard after stop performs no further
acquire or release — so after discard no track remains active and release
is once per acquire; but a surface teardown while recording is in progress
performs no release at all (it only clears the timer and drops the audio
element), so the microphone track stays live until the recording is
stopped. -/
theorem claim_C3_amended :
    (∀ s : AudioInput.State, s.mediaRecorder = some { recording := true } →
        s.isRecording = true →
        (AudioInput.stopRecording s).releaseCount = s.releaseCount + 1 ∧
        (AudioInput.stopRecording s).mediaRecorder = some { recording := false }) ∧
    (∀ s : AudioInput.State,
        (AudioInput.confirmDelete s).releaseCount = s.releaseCount ∧
        (AudioInput.confirmDelete s).acquireCount = s.acquireCount) ∧
    (∀ s : AudioInput.State,
        (AudioInput.unmountCleanup s).releaseCount = s.releaseCount ∧
        (AudioInput.unmountCleanup s).acquireCount = s.acquireCount) ∧
    ((AudioInput.confirmDelete (AudioInput.stopRecording
          (AudioInput.startRecording AudioInput.init))).releaseCount = 1 ∧
      (AudioInput.confirmDelete (AudioInput.stopRecording
          (AudioInput.startRecording AudioInput.init))).acquireCount = 1) := by
  refine ⟨?_, ?_, fun s => ⟨rfl, rfl⟩, by decide⟩
  · intro s hm hr
    simp [AudioInput.stopRecording, AudioInput.stopRecordingWith,
      AudioInput.recorderStop, hm, hr]
  · intro s
    unfold AudioInput.confirmDelete
    dsimp only
    split <;> exact ⟨rfl, rfl⟩

/-- Witness for the amended C3 at a freshly started recording. -/
theorem witness_C3_amended :
    (AudioInput.stopRecording (AudioInput.startRecording AudioInput.init)).releaseCount
        = (AudioInput.startRecording AudioInput.init).releaseCount + 1 ∧
    (AudioInput.stopRecording (AudioInput.startRecording AudioInput.init)).mediaRecorder
        = some { recording := false } :=
  claim_C3_amended.1 (AudioInput.startRecording AudioInput.init) rfl rfl

/-- Counterexample to claim C4 as stated: submitting a zero-byte artifact
is not rejected and reaches the backend.  InterviewMode performs both the
upload and the evaluation call on an empty blob; ConversationalFeedback-
Viewer, holding the zero-byte artifact of a chunkless recording, issues
its analyze request and raises no error of any kind — no `EmptyRecording`
check exists in the code. -/
theorem counterexample_C4 :
    (InterviewMode.handleAudioSubmit emptyBlob sampleEnv InterviewMode.init).2
        = [.uploadLocal, .interviewEvaluate] ∧
    c4EmptyCapture.audioBlob = some emptyBlob ∧
    (ConvFeedback.submitStart c4EmptyCapture).2 = true ∧
    (ConvFeedback.submitStart c4EmptyCapture).1.error = none := by
  decide

/-- Claim C4 as amended: no emptiness check exists.  InterviewMode always
issues the upload call, whatever the artifact (including zero bytes);
ConversationalFeedbackViewer issues its analyze request whenever an
artifact and a config are present, again regardless of size; the only
short-circuits are a missing artifact or config (no call, no error) and
AudioInputComponent's submit handler doing nothing when no artifact
exists. -/
theorem claim_C4_amended :
    (∀ (blob : Blob) (env : InterviewMode.NetEnv) (s : InterviewMode.State),
        InterviewMode.Call.uploadLocal
          ∈ (InterviewMode.handleAudioSubmit blob env s).2) ∧
    (∀ s : ConvFeedback.State, s.audioBlob = none →
        ConvFeedback.submitStart s = (s, false)) ∧
    (∀ (s : ConvFeedback.State) (b : Blob), s.audioBlob = some b →
        s.config.isSome = true → (ConvFeedback.submitStart s).2 = true) ∧
    (∀ s : AudioInput.State, s.audioBlob = none →
        AudioInput.handleSubmit s = none) := by
  refine ⟨?_, ?_, ?_, fun s h => h⟩
  · intro blob env s
    unfold InterviewMode.handleAudioSubmit
    dsimp only
    split
    · split <;> simp
    · simp
  · intro s h
    simp [ConvFeedback.submitStart, h]
  · intro s b hb hc
    rcases Option.isSome_iff_exists.mp hc with ⟨c, hcfg⟩
    simp [ConvFeedback.submitStart, hb, hcfg]

/-- Witness for the amended C4: the empty-artifact capture issues its
request; surfaces without an artifact do nothing. -/
theorem witness_C4_amended :
    (ConvFeedback.submitStart c4EmptyCapture).2 = true ∧
    ConvFeedback.submitStart ConvFeedback.init = (ConvFeedback.init, false) ∧
    AudioInput.handleSubmit AudioInput.init = none :=
  ⟨claim_C4_amended.2.2.1 c4EmptyCapture emptyBlob rfl rfl,
    claim_C4_amended.2.1 ConvFeedback.init rfl,
    claim_C4_amended.2.2.2 AudioInput.init rfl⟩

/-- Counterexample to claim C5 as stated: with the first submission of a
captured session still in flight (`isProcessing = true`), a second
`submitRecording` call does not fail with `AlreadySubmitting` — it issues
another network request and leaves the error state empty.  No such guard
or error exists in the code. -/
theorem counterexample_C5 :
    c5InFlight.isProcessing = true ∧
    (ConvFeedback.submitStart c5InFlight).2 = true ∧
    (ConvFeedback.submitStart c5InFlight).1.error = none := by
  decide

/-- Claim C5 as amended: while a submission is in flight the surfaces only
disable their submit controls (`disabled={isProcessing}` resp. the
`isSubmitting` prop); the submit operation itself rejects nothing — called
again concurrently it issues another request without error — and once the
first submission resolves, with success or failure, the processing flag is
cleared so a new submit is accepted. -/
theorem claim_C5_amended :
    (∀ s : ConvFeedback.State, ConvFeedback.submitDisabled s = s.isProcessing) ∧
    (∀ (s : ConvFeedback.State) (b : Blob), s.isProcessing = true →
        s.audioBlob = some b → s.config.isSome = true →
        (ConvFeedback.submitStart s).2 = true ∧
        (ConvFeedback.submitStart s).1.error = s.error) ∧
    (∀ (o : ConvFeedback.SubmitOutcome) (s : ConvFeedback.State),
        (ConvFeedback.submitResolve o s).isProcessing = false) ∧
    (∀ (blob : Blob) (env : InterviewMode.NetEnv) (s : InterviewMode.State),
        s.isSubmitting = true →
        (InterviewMode.handleAudioSubmit blob env s).2 ≠ []) := by
  refine ⟨fun s => rfl, ?_, ?_, ?_⟩
  · intro s b hp hb hc
    rcases Option.isSome_iff_exists.mp hc with ⟨c, hcfg⟩
    simp [ConvFeedback.submitStart, hb, hcfg]
  · intro o s
    cases o <;> rfl
  · intro blob env s _
    unfold InterviewMode.handleAudioSubmit
    dsimp only
    split
    · split <;> simp
    · simp

/-- Witness for the amended C5: the in-flight state accepts and forwards a
concurrent call; resolution clears the processing flag; InterviewMode in
`isSubmitting` still performs calls. -/
theorem witness_C5_amended :
    ((ConvFeedback.submitStart c5InFlight).2 = true ∧
      (ConvFeedback.submitStart c5InFlight).1.error = c5InFlight.error) ∧
    (ConvFeedback.submitResolve .netFail c5InFlight).isProcessing = false ∧
    (InterviewMode.handleAudioSubmit emptyBlob sampleEnv
        { InterviewMode.init with isSubmitting := true }).2 ≠ [] :=
  ⟨claim_C5_amended.2.1 c5InFlight { data := [3], mime := "audio/webm" } rfl rfl rfl,
    claim_C5_amended.2.2.1 .netFail c5InFlight,
    claim_C5_amended.2.2.2 emptyBlob sampleEnv
      { InterviewMode.init with isSubmitting := true } rfl⟩

/-- The `recorderStop` never touches the orphaned playback handles. -/
theorem ConvFeedback.orphans_recorderStop (s : ConvFeedback.State) :
    (ConvFeedback.recorderStop s).orphans = s.orphans := by
  unfold ConvFeedback.recorderStop
  split
  · split <;> rfl
  · rfl

/-- The `stopRecordingWith` never touches the orphaned playback handles. -/
theorem ConvFeedback.orphans_stopRecordingWith (c : Bool) (s : ConvFeedback.State) :
    (ConvFeedback.stopRecordingWith c s).orphans = s.orphans := by
  unfold ConvFeedback.stopRecordingWith
  split
  · exact ConvFeedback.orphans_recorderStop s
  · rfl

/-- The duration interval never touches the orphaned playback handles. -/
theorem ConvFeedback.orphans_tick (s : ConvFeedback.State) :
    (ConvFeedback.tick s).orphans = s.orphans := by
  unfold ConvFeedback.tick
  split
  · dsimp only
    split
    · exact ConvFeedback.orphans_stopRecordingWith false s
    · rfl
  · rfl

/-- Any handle an event adds to `orphans` was paused as it was added:
the only places a handle is orphaned — `playAudio` replacing the current
element and `deleteRecording` dropping it — pause it first. -/
theorem ConvFeedback.mem_orphans_step (e : ConvFeedback.Ev)
    (s : ConvFeedback.State) (h : ConvFeedback.Handle)
    (hmem : h ∈ (ConvFeedback.step e s).orphans) :
    h ∈ s.orphans ∨ h.status = ConvFeedback.PlayStatus.Paused := by
  cases e with
  | loadConfigOk cfg => exact Or.inl hmem
  | loadConfigErr msg => exact Or.inl hmem
  | startRec => exact Or.inl hmem
  | startRecErr => exact Or.inl hmem
  | dataAvail c => exact Or.inl hmem
  | tick =>
      have he : (ConvFeedback.step .tick s).orphans = s.orphans :=
        ConvFeedback.orphans_tick s
      exact Or.inl (he ▸ hmem)
  | stopRec =>
      have he : (ConvFeedback.step .stopRec s).orphans = s.orphans :=
        ConvFeedback.orphans_stopRecordingWith s.isRecording s
      exact Or.inl (he ▸ hmem)
  | play =>
      cases hu : s.audioUrl with
      | none =>
          simp only [ConvFeedback.step, ConvFeedback.playAudio, hu] at hmem
          exact Or.inl hmem
      | some u =>
          cases ha : s.audioRef with
          | none =>
              simp only [ConvFeedback.step, ConvFeedback.playAudio, hu, ha] at hmem
              exact Or.inl hmem
          | some a =>
              simp only [ConvFeedback.step, ConvFeedback.playAudio, hu, ha,
                List.mem_cons] at hmem
              rcases hmem with rfl | hmem
              · exact Or.inr rfl
              · exact Or.inl hmem
  | pause =>
      cases ha : s.audioRef with
      | none =>
          simp only [ConvFeedback.step, ConvFeedback.pauseAudio, ha] at hmem
          exact Or.inl hmem
      | some a =>
          simp only [ConvFeedback.step, ConvFeedback.pauseAudio, ha] at hmem
          exact Or.inl hmem
  | ended =>
      cases ha : s.audioRef with
      | none =>
          simp only [ConvFeedback.step, ConvFeedback.ended, ha] at hmem
          exact Or.inl hmem
      | some a =>
          simp only [ConvFeedback.step, ConvFeedback.ended, ha] at hmem
          exact Or.inl hmem
  | deleteRec =>
      cases ha : s.audioRef with
      | none =>
          simp only [ConvFeedback.step, ConvFeedback.deleteRecording, ha] at hmem
          exact Or.inl hmem
      | some a =>
          simp only [ConvFeedback.step, ConvFeedback.deleteRecording, ha,
            List.mem_cons] at hmem
          rcases hmem with rfl | hmem
          · exact Or.inr rfl
          · exact Or.inl hmem
  | submitBegin =>
      simp only [ConvFeedback.step, ConvFeedback.submitStart] at hmem
      split at hmem
      · exact Or.inl hmem
      · exact Or.inl hmem
  | submitEnd o =>
      cases o with
      | ok r => exact Or.inl hmem
      | httpError c => exact Or.inl hmem
      | netFail => exact Or.inl hmem
  | unmount => exact Or.inl hmem

/-- Invariant of every reachable surface state: no orphaned handle is
still `Playing`. -/
theorem ConvFeedback.reachable_orphans_silent {s : ConvFeedback.State}
    (hr : ConvFeedback.Reachable s) :
    ∀ h ∈ s.orphans, h.status ≠ ConvFeedback.PlayStatus.Playing := by
  induction hr with
  | init =>
      intro h hmem
      exact absurd hmem (List.not_mem_nil h)
  | step e hr ih =>
      intro h hmem
      rcases ConvFeedback.mem_orphans_step e _ h hmem with hin | hp
      · exact ih h hin
      · rw [hp]
        intro hc
        cases hc

/-- Claim C7: at most one playback handle plays at a time.  In every
reachable ConversationalFeedbackViewer state whose current handle A is
`Playing`, calling `playAudio` (the surface holds a single source URL; a
play request always builds a fresh element from it) pauses A, installs a
fresh handle B as the current one in `Playing`, and leaves B as the sole
playing handle among all handles ever created.  In AudioInputComponent,
`playAudio` while something is playing is a guarded no-op, so a second
playing handle cannot arise there at all. -/
theorem claim_C7 :
    (∀ (s : ConvFeedback.State) (a : ConvFeedback.Handle) (u : Nat),
        ConvFeedback.Reachable s → s.audioRef = some a →
        a.status = ConvFeedback.PlayStatus.Playing → s.audioUrl = some u →
        (ConvFeedback.playAudio s).audioRef
            = some { id := s.handleCounter, status := .Playing } ∧
        ({ id := a.id, status := .Paused } : ConvFeedback.Handle)
            ∈ (ConvFeedback.playAudio s).orphans ∧
        ConvFeedback.playingCount (ConvFeedback.playAudio s) = 1) ∧
    (∀ t : AudioInput.State, t.isPlaying = true →
        AudioInput.playAudio t = t) := by
  constructor
  · intro s a u hr ha hst hu
    have horph := ConvFeedback.reachable_orphans_silent hr
    have h0 : s.orphans.countP
        (fun h => decide (h.status = ConvFeedback.PlayStatus.Playing)) = 0 := by
      apply List.countP_eq_zero.mpr
      intro x hx
      simpa using horph x hx
    have hplay : ConvFeedback.playAudio s
        = { s with orphans := { id := a.id, status := .Paused } :: s.orphans
                   audioRef := some { id := s.handleCounter, status := .Playing }
                   handleCounter := s.handleCounter + 1
                   isPlaying := true } := by
      unfold ConvFeedback.playAudio
      rw [hu, ha]
    refine ⟨?_, ?_, ?_⟩
    · rw [hplay]
    · rw [hplay]
      exact List.mem_cons_self _ _
    · rw [hplay]
      simp [ConvFeedback.playingCount, ConvFeedback.handleList,
        List.countP_cons, Option.toList, h0]
  · intro t ht
    unfold AudioInput.playAudio
    rw [ht]
    simp

/-- Witness for C7: a captured recording being played, reached by start,
one chunk, stop, play; a second play call supersedes the playing handle. -/
theorem witness_C7 :
    ((ConvFeedback.playAudio c7TraceState).audioRef
        = some { id := 1, status := .Playing } ∧
      ({ id := 0, status := .Paused } : ConvFeedback.Handle)
          ∈ (ConvFeedback.playAudio c7TraceState).orphans ∧
      ConvFeedback.playingCount (ConvFeedback.playAudio c7TraceState) = 1) ∧
    AudioInput.playAudio aiPlayingState = aiPlayingState := by
  have hr : ConvFeedback.Reachable c7TraceState :=
    .step .play (.step .stopRec (.step (.dataAvail 3) (.step .startRec .init)))
  exact ⟨claim_C7.1 c7TraceState { id := 0, status := .Playing } 0 hr rfl rfl rfl,
    claim_C7.2 aiPlayingState rfl⟩

end Sensei
